import Mathlib

/-!
Shallow embedding of the Mini Mint ledger engine.

The ledger lives in Postgres: an append-only `transactions` table plus
`cd_lots`, `stock_positions`, `stock_prices` and `settings` tables, and a
family of plpgsql RPCs (`deposit_to_cash`, `withdraw_from_cash`,
`invest_in_mmf`, `redeem_from_mmf`, `accrue_mmf_interest`, `create_cd`,
`mature_cd`, `break_cd`, `buy_stock`, `spend_from_mmf`), plus the
TypeScript Balance Reader helpers and the AddMoney Hanzi Dojo
snapshot flow.  Every RPC is translated as a pure function on an explicit
database state; a raised exception becomes `Except.error` and, since a
plpgsql exception aborts the enclosing transaction, an erroring call
leaves the state untouched (`applyOp`).  Numeric values are rationals;
`ROUND(x, n)` is Postgres half-away-from-zero rounding; dates are
integers (days); `created_at` ordering is the list order of the
append-only transaction list (oldest first).  A guard the SQL writes as
`IF bad THEN RAISE` appears here as `if good then ... else .error`.
-/

namespace MiniMint

/-- The `transaction_type` enum of the schema. -/
inductive TxType
  | deposit
  | withdraw
  | invest
  | redeem
  | interest
  | dividend
  | buy
  | sell
deriving DecidableEq, Repr

/-- The `transaction_bucket` enum of the schema. -/
inductive Bucket
  | cash
  | mmf
  | cd
  | stock
deriving DecidableEq, Repr

/-- The `cd_status` enum of the schema. -/
inductive CdStatus
  | active
  | matured
  | broken
deriving DecidableEq, Repr

/-- The structured content of the `metadata` jsonb column: every key any of
the embedded operations reads or writes, each optional (absent = not in the
json object). -/
structure Meta where
  source : Option String := none
  pointsTotal : Option Int := none
  pointsDelta : Option Int := none
  daysAccrued : Option Int := none
  apyAtAccrual : Option ℚ := none
  balanceAtAccrual : Option ℚ := none
  ticker : Option String := none
  shares : Option ℚ := none
  pricePerShare : Option ℚ := none
  realizedGainLoss : Option ℚ := none
  reason : Option String := none
  fundedFrom : Option String := none
  cdLotRef : Option Nat := none
  principal : Option ℚ := none
  interest : Option ℚ := none
  penalty : Option ℚ := none
  penaltyDays : Option Int := none
  netReturned : Option ℚ := none
  daysHeld : Option Int := none
  apy : Option ℚ := none
deriving DecidableEq, Repr

/-- One row of the append-only `transactions` table.  `day` is
`utc_date(created_at)`. -/
structure Entry where
  kid : Nat
  ty : TxType
  bucket : Bucket
  amount : ℚ
  note : Option String := none
  meta : Option Meta := none
  createdBy : Nat
  day : Int
deriving DecidableEq, Repr

/-- One row of `cd_lots`. -/
structure CdLot where
  id : Nat
  kid : Nat
  principal : ℚ
  apy : ℚ
  termMonths : Nat
  startDate : Int
  maturityDate : Int
  status : CdStatus
deriving DecidableEq, Repr

/-- One row of `stock_positions`. -/
structure Position where
  kid : Nat
  ticker : String
  shares : ℚ
  costBasis : ℚ
deriving DecidableEq, Repr

/-- One row of `stock_prices`. -/
structure PricePoint where
  ticker : String
  date : Int
  closePrice : ℚ
deriving DecidableEq, Repr

/-- The database state: `admins` is `admin_users` as (user_id,
household_id), `kids` is the `kids` table as (kid_id, household_id),
`txns` is the `transactions` table in `created_at` ascending order, and
`settings` holds the numeric value of each settings key. -/
structure DB where
  admins : List (Nat × Nat)
  kids : List (Nat × Nat)
  txns : List Entry
  lots : List CdLot
  positions : List Position
  prices : List PricePoint
  settings : List (String × ℚ)
deriving DecidableEq, Repr

/-- The typed failures the RPCs raise (`RAISE EXCEPTION ...`). -/
inductive Err
  | unauthorized
  | invalidAmount
  | noteTooLong
  | insufficientBalance
  | settingNotFound
  | invalidTerm
  | lotNotFound
  | lotNotActive
  | notYetMatured
  | invalidTicker
  | noPriceData
  | positionLimitReached
  | insufficientShares
  | noShares
  | appendOnly
  | regressionDetected
  | noNewPoints
deriving DecidableEq, Repr

/-- Postgres `ROUND(x, n)`: round to `n` fractional digits, ties away from
zero. -/
def roundTo (n : Nat) (x : ℚ) : ℚ :=
  (if 0 ≤ x then ((⌊x * (10 : ℚ) ^ n + 1/2⌋ : ℤ) : ℚ)
   else -((⌊-x * (10 : ℚ) ^ n + 1/2⌋ : ℤ) : ℚ)) / (10 : ℚ) ^ n

/-- Postgres `ROUND(x, 2)`. -/
def round2 (x : ℚ) : ℚ := roundTo 2 x

/-- Postgres `ROUND(x, 8)`. -/
def round8 (x : ℚ) : ℚ := roundTo 8 x

/-- The amount validation shared by every RPC:
`p_amount <= 0 OR p_amount > 100000 OR p_amount != ROUND(p_amount, 2)`
raises, so an amount is valid when it is positive, at most 100000 and has
exactly two fractional digits. -/
def validAmount (a : ℚ) : Prop :=
  0 < a ∧ a ≤ 100000 ∧ a = round2 a

instance (a : ℚ) : Decidable (validAmount a) := by
  unfold validAmount; infer_instance

/-- The note validation: `p_note IS NOT NULL AND LENGTH(p_note) > 500`
raises. -/
def noteOk : Option String → Prop
  | none => True
  | some s => s.length ≤ 500

instance (n : Option String) : Decidable (noteOk n) := by
  cases n <;> · unfold noteOk; infer_instance

/-- The auth + household ownership check of every RPC:
`EXISTS (SELECT 1 FROM admin_users au JOIN kids k ON k.household_id =
au.household_id WHERE au.user_id = v_caller_id AND k.id = p_kid_id)`. -/
def authorized (db : DB) (caller kid : Nat) : Bool :=
  db.admins.any fun a =>
    a.1 == caller && db.kids.any fun k => k.1 == kid && k.2 == a.2

/-- The query `COALESCE(SUM(t.amount), 0.00) FROM transactions t WHERE t.kid_id = ...
AND t.bucket = ...` — the balance computation inside every RPC. -/
def sumBucket (txns : List Entry) (kid : Nat) (b : Bucket) : ℚ :=
  (txns.filter fun e => e.kid == kid && e.bucket == b).foldr
    (fun e s => e.amount + s) 0

/-- The TypeScript Balance Reader `getCashBalance`: select the amounts of
the cash entries of the kid and `reduce((sum, row) => sum + amount, 0)`. -/
def getCashBalance (txns : List Entry) (kid : Nat) : ℚ :=
  (txns.filter fun e => e.kid == kid && e.bucket == Bucket.cash).foldl
    (fun s e => s + e.amount) 0

/-- The TypeScript Balance Reader `getMmfBalance`. -/
def getMmfBalance (txns : List Entry) (kid : Nat) : ℚ :=
  (txns.filter fun e => e.kid == kid && e.bucket == Bucket.mmf).foldl
    (fun s e => s + e.amount) 0

/-- Modelled from the wording of the specification, for comparison with the
code-derived readers: the signed sum `Σ amount` of the entries of one
entity and bucket. -/
def specSignedSum (txns : List Entry) (kid : Nat) (b : Bucket) : ℚ :=
  ((txns.filter fun e => decide (e.kid = kid) && decide (e.bucket = b)).map
    Entry.amount).sum

/-- The query `SELECT s.value FROM settings s WHERE s.key = ...`. -/
def getSetting (db : DB) (k : String) : Option ℚ :=
  (db.settings.find? fun p => p.1 == k).map (·.2)

/-- The `deposit_to_cash` metadata construction: start from
`COALESCE(p_metadata, empty)`, overwrite the source key when `p_source` is
present, and store NULL when the result is the empty object. -/
def buildDepositMeta (src : Option String) (m : Option Meta) : Option Meta :=
  let base := m.getD {}
  let merged := match src with
    | none => base
    | some s => { base with source := some s }
  if merged = ({} : Meta) then none else some merged

/-- RPC `deposit_to_cash` (final form of migration 011): auth check, amount
check, note check, advisory lock, metadata merge, insert one positive cash
deposit entry, return the recomputed cash balance. -/
def deposit_to_cash (db : DB) (caller kid : Nat) (amount : ℚ)
    (note src : Option String) (m : Option Meta) (today : Int) :
    Except Err (ℚ × DB) :=
  if authorized db caller kid then
    if validAmount amount then
      if noteOk note then
        let e : Entry :=
          { kid := kid, ty := .deposit, bucket := .cash, amount := amount,
            note := note, meta := buildDepositMeta src m, createdBy := caller,
            day := today }
        let db' := { db with txns := db.txns ++ [e] }
        .ok (sumBucket db'.txns kid .cash, db')
      else .error .noteTooLong
    else .error .invalidAmount
  else .error .unauthorized

/-- RPC `withdraw_from_cash`: auth check, amount check, note check,
advisory lock, balance check (`v_balance < p_amount` raises), insert one
negative cash withdrawal entry, return the recomputed cash balance. -/
def withdraw_from_cash (db : DB) (caller kid : Nat) (amount : ℚ)
    (note : Option String) (today : Int) : Except Err (ℚ × DB) :=
  if authorized db caller kid then
    if validAmount amount then
      if noteOk note then
        if sumBucket db.txns kid .cash < amount then
          .error .insufficientBalance
        else
          let e : Entry :=
            { kid := kid, ty := .withdraw, bucket := .cash,
              amount := -amount, note := note, createdBy := caller,
              day := today }
          let db' := { db with txns := db.txns ++ [e] }
          .ok (sumBucket db'.txns kid .cash, db')
      else .error .noteTooLong
    else .error .invalidAmount
  else .error .unauthorized

/-- RPC `invest_in_mmf`: auth, amount check, advisory lock, cash balance
check, then two entries (negative cash, positive mmf) and both recomputed
balances. -/
def invest_in_mmf (db : DB) (caller kid : Nat) (amount : ℚ) (today : Int) :
    Except Err ((ℚ × ℚ) × DB) :=
  if authorized db caller kid then
    if validAmount amount then
      if sumBucket db.txns kid .cash < amount then
        .error .insufficientBalance
      else
        let e1 : Entry :=
          { kid := kid, ty := .invest, bucket := .cash, amount := -amount,
            createdBy := caller, day := today }
        let e2 : Entry :=
          { kid := kid, ty := .invest, bucket := .mmf, amount := amount,
            createdBy := caller, day := today }
        let db' := { db with txns := db.txns ++ [e1, e2] }
        .ok ((sumBucket db'.txns kid .cash, sumBucket db'.txns kid .mmf), db')
    else .error .invalidAmount
  else .error .unauthorized

/-- RPC `redeem_from_mmf`: auth, amount check, advisory lock, mmf balance
check, then two entries (negative mmf, positive cash) and both recomputed
balances. -/
def redeem_from_mmf (db : DB) (caller kid : Nat) (amount : ℚ) (today : Int) :
    Except Err ((ℚ × ℚ) × DB) :=
  if authorized db caller kid then
    if validAmount amount then
      if sumBucket db.txns kid .mmf < amount then
        .error .insufficientBalance
      else
        let e1 : Entry :=
          { kid := kid, ty := .redeem, bucket := .mmf, amount := -amount,
            createdBy := caller, day := today }
        let e2 : Entry :=
          { kid := kid, ty := .redeem, bucket := .cash, amount := amount,
            createdBy := caller, day := today }
        let db' := { db with txns := db.txns ++ [e1, e2] }
        .ok ((sumBucket db'.txns kid .cash, sumBucket db'.txns kid .mmf), db')
    else .error .invalidAmount
  else .error .unauthorized

/-- The last-accrual-date query of `accrue_mmf_interest`: the `utc_date` of
the most recent interest entry in the mmf bucket (`ORDER BY created_at DESC
LIMIT 1`), and if none exists, of the first invest entry into the mmf
bucket (`ORDER BY created_at ASC LIMIT 1`). -/
def lastAccrualDay (txns : List Entry) (kid : Nat) : Option Int :=
  match (txns.filter fun t =>
      t.kid == kid && t.ty == TxType.interest && t.bucket == Bucket.mmf).getLast? with
  | some t => some t.day
  | none =>
    ((txns.filter fun t =>
        t.kid == kid && t.ty == TxType.invest && t.bucket == Bucket.mmf).head?).map
      (·.day)

/-- RPC `accrue_mmf_interest`: auth, advisory lock, read the mmf balance
(early return when it is not positive), read `mmf_apy`, find the last
accrual date (early return when none), compute the elapsed days (early
return when not positive), round the interest (early return when not
positive), otherwise insert one interest entry and report it.  Returns
`(interest_credited, new_mmf_balance)` plus the state. -/
def accrue_mmf_interest (db : DB) (caller kid : Nat) (today : Int) :
    Except Err ((ℚ × ℚ) × DB) :=
  if authorized db caller kid then
    let bal := sumBucket db.txns kid .mmf
    if bal ≤ 0 then .ok ((0, bal), db)
    else match getSetting db "mmf_apy" with
    | none => .error .settingNotFound
    | some apyRate =>
      match lastAccrualDay db.txns kid with
      | none => .ok ((0, bal), db)
      | some d =>
        let days : Int := today - d
        if days ≤ 0 then .ok ((0, bal), db)
        else
          let i := round2 (bal * (apyRate / 365) * (days : ℚ))
          if i ≤ 0 then .ok ((0, bal), db)
          else
            let e : Entry :=
              { kid := kid, ty := .interest, bucket := .mmf, amount := i,
                meta := some { daysAccrued := some days,
                               apyAtAccrual := some apyRate,
                               balanceAtAccrual := some bal },
                createdBy := caller, day := today }
            .ok ((i, bal + i), { db with txns := db.txns ++ [e] })
  else .error .unauthorized

/-- RPC `create_cd`: auth, term check (3, 6 or 12 months), amount check,
advisory lock, cash balance check, APY lookup, then one negative cash
entry and a new active lot.  The generated lot row id and the calendar
maturity date (`CURRENT_DATE + term months`) are taken as parameters. -/
def create_cd (db : DB) (caller kid : Nat) (amount : ℚ) (termMonths : Nat)
    (today maturity : Int) (newLotId : Nat) :
    Except Err ((Nat × Int × ℚ) × DB) :=
  if authorized db caller kid then
    if termMonths = 3 ∨ termMonths = 6 ∨ termMonths = 12 then
      if validAmount amount then
        if sumBucket db.txns kid .cash < amount then
          .error .insufficientBalance
        else
          match getSetting db ("cd_" ++ toString termMonths ++ "m_apy") with
          | none => .error .settingNotFound
          | some apyRate =>
            let e : Entry :=
              { kid := kid, ty := .invest, bucket := .cash, amount := -amount,
                createdBy := caller, day := today }
            let lot : CdLot :=
              { id := newLotId, kid := kid, principal := amount,
                apy := apyRate, termMonths := termMonths, startDate := today,
                maturityDate := maturity, status := .active }
            .ok ((newLotId, maturity, apyRate),
                 { db with txns := db.txns ++ [e], lots := db.lots ++ [lot] })
      else .error .invalidAmount
    else .error .invalidTerm
  else .error .unauthorized

/-- RPC `mature_cd`: fetch the lot, auth via the kid of the lot, require active
status and `maturity_date <= CURRENT_DATE`, compute
`v_days := maturity_date - start_date` and
`interest := ROUND(principal * apy * days / 365.0, 2)`, set the status to
matured and credit `principal + interest` to cash in one entry.  Returns
`(principal_returned, interest_earned, total_returned)`. -/
def mature_cd (db : DB) (caller lotId : Nat) (today : Int) :
    Except Err ((ℚ × ℚ × ℚ) × DB) :=
  match db.lots.find? (fun l => l.id == lotId) with
  | none => .error .lotNotFound
  | some lot =>
    if authorized db caller lot.kid then
      if lot.status = .active then
        if lot.maturityDate > today then .error .notYetMatured
        else
          let days : Int := lot.maturityDate - lot.startDate
          let i := round2 (lot.principal * lot.apy * (days : ℚ) / 365)
          let total := lot.principal + i
          let lots' := db.lots.map fun l =>
            if l.id == lotId then { l with status := CdStatus.matured } else l
          let e : Entry :=
            { kid := lot.kid, ty := .redeem, bucket := .cash, amount := total,
              note := some (toString lot.termMonths ++ "-month CD matured"),
              meta := some { cdLotRef := some lotId,
                             principal := some lot.principal,
                             interest := some i, apy := some lot.apy,
                             daysHeld := some days },
              createdBy := caller, day := today }
          .ok ((lot.principal, i, total),
               { db with lots := lots', txns := db.txns ++ [e] })
      else .error .lotNotActive
    else .error .unauthorized

/-- RPC `break_cd`: fetch the lot, auth via the kid of the lot, require active
status, compute `v_days := CURRENT_DATE - start_date`, the accrued
interest, the penalty over `LEAST(v_days, 30)` days, and
`net := principal + GREATEST(interest - penalty, 0)`; set the status to
broken and credit the net amount to cash in one entry.  Returns
`(principal_returned, interest_earned, penalty, net_returned)`. -/
def break_cd (db : DB) (caller lotId : Nat) (today : Int) :
    Except Err ((ℚ × ℚ × ℚ × ℚ) × DB) :=
  match db.lots.find? (fun l => l.id == lotId) with
  | none => .error .lotNotFound
  | some lot =>
    if authorized db caller lot.kid then
      if lot.status = .active then
        let days : Int := today - lot.startDate
        let i := round2 (lot.principal * lot.apy * (days : ℚ) / 365)
        let penaltyDays : Int := min days 30
        let pen := round2 (lot.principal * lot.apy * (penaltyDays : ℚ) / 365)
        let net := lot.principal + max (i - pen) 0
        let lots' := db.lots.map fun l =>
          if l.id == lotId then { l with status := CdStatus.broken } else l
        let e : Entry :=
          { kid := lot.kid, ty := .redeem, bucket := .cash, amount := net,
            note := some (toString lot.termMonths ++ "-month CD broken early"),
            meta := some { cdLotRef := some lotId,
                           principal := some lot.principal,
                           interest := some i, penalty := some pen,
                           penaltyDays := some penaltyDays,
                           netReturned := some net, daysHeld := some days,
                           apy := some lot.apy },
            createdBy := caller, day := today }
        .ok ((lot.principal, i, pen, net),
             { db with lots := lots', txns := db.txns ++ [e] })
      else .error .lotNotActive
    else .error .unauthorized

/-- The ticker format check `p_ticker ~ anchored [A-Z]{1,10}`. -/
def validTicker (t : String) : Bool :=
  decide (1 ≤ t.length) && decide (t.length ≤ 10) &&
    t.toList.all fun c => decide ('A' ≤ c) && decide (c ≤ 'Z')

/-- The query `SELECT close_price FROM stock_prices WHERE ticker = ... ORDER BY date
DESC LIMIT 1`. -/
def latestPrice (prices : List PricePoint) (t : String) : Option ℚ :=
  ((prices.filter fun p => p.ticker == t).foldl
    (fun acc p =>
      match acc with
      | none => some p
      | some q => if q.date < p.date then some p else some q)
    none).map (·.closePrice)

/-- The query `SELECT * FROM stock_positions WHERE kid_id = ... AND ticker = ...`
(unique by the `uq_kid_ticker` constraint). -/
def findPosition (ps : List Position) (kid : Nat) (t : String) :
    Option Position :=
  ps.find? fun p => p.kid == kid && p.ticker == t

/-- The query `COUNT(*) FROM stock_positions WHERE kid_id = ... AND shares > 0`. -/
def activePositionCount (ps : List Position) (kid : Nat) : Nat :=
  (ps.filter fun p => p.kid == kid && decide (0 < p.shares)).length

/-- RPC `buy_stock`: auth, ticker check, amount check, advisory lock,
latest price lookup, position-count limit check for a new ticker
(`stock_position_limit`, default 5), cash balance check,
`shares := ROUND(dollars / price, 8)`, two entries (negative cash buy,
positive stock buy) and an upsert of the (kid, ticker) position row.
Returns `(shares_bought, price_per_share, new_cash_balance)`. -/
def buy_stock (db : DB) (caller kid : Nat) (tick : String) (dollars : ℚ)
    (today : Int) : Except Err ((ℚ × ℚ × ℚ) × DB) :=
  if authorized db caller kid then
    if validTicker tick then
      if validAmount dollars then
        match latestPrice db.prices tick with
        | none => .error .noPriceData
        | some price =>
          let hasPos := (findPosition db.positions kid tick).isSome
          let posLimit : ℚ := (getSetting db "stock_position_limit").getD 5
          if ¬ hasPos ∧ posLimit ≤ (activePositionCount db.positions kid : ℚ) then
            .error .positionLimitReached
          else if sumBucket db.txns kid .cash < dollars then
            .error .insufficientBalance
          else
            let shares := round8 (dollars / price)
            let m : Meta :=
              { ticker := some tick, shares := some shares,
                pricePerShare := some price }
            let e1 : Entry :=
              { kid := kid, ty := .buy, bucket := .cash, amount := -dollars,
                meta := some m, createdBy := caller, day := today }
            let e2 : Entry :=
              { kid := kid, ty := .buy, bucket := .stock, amount := dollars,
                meta := some m, createdBy := caller, day := today }
            let positions' :=
              if hasPos then
                db.positions.map fun p =>
                  if p.kid == kid && p.ticker == tick then
                    { p with shares := p.shares + shares,
                             costBasis := p.costBasis + dollars }
                  else p
              else
                db.positions ++ [{ kid := kid, ticker := tick,
                                   shares := shares, costBasis := dollars }]
            let db' := { db with txns := db.txns ++ [e1, e2],
                                 positions := positions' }
            .ok ((shares, price, sumBucket db'.txns kid .cash), db')
      else .error .invalidAmount
    else .error .invalidTicker
  else .error .unauthorized

/-- RPC `spend_from_mmf`: auth, amount check, advisory lock, mmf balance
check, then three entries committed together — negative mmf redeem,
positive cash redeem, negative cash withdrawal, all of the requested
amount.  Returns the recomputed mmf balance. -/
def spend_from_mmf (db : DB) (caller kid : Nat) (amount : ℚ)
    (note : Option String) (today : Int) : Except Err (ℚ × DB) :=
  if authorized db caller kid then
    if validAmount amount then
      if sumBucket db.txns kid .mmf < amount then
        .error .insufficientBalance
      else
        let e1 : Entry :=
          { kid := kid, ty := .redeem, bucket := .mmf, amount := -amount,
            note := note, meta := some { reason := some "spend" },
            createdBy := caller, day := today }
        let e2 : Entry :=
          { kid := kid, ty := .redeem, bucket := .cash, amount := amount,
            note := note, meta := some { reason := some "spend",
                                         fundedFrom := some "mmf" },
            createdBy := caller, day := today }
        let e3 : Entry :=
          { kid := kid, ty := .withdraw, bucket := .cash, amount := -amount,
            note := note, meta := some { fundedFrom := some "mmf" },
            createdBy := caller, day := today }
        let db' := { db with txns := db.txns ++ [e1, e2, e3] }
        .ok (sumBucket db'.txns kid .mmf, db')
    else .error .invalidAmount
  else .error .unauthorized

/-- The AddMoney last-snapshot query for the Hanzi Dojo flow: take
the cash deposit entries of the kid with non-null metadata, most recent first,
limited to 50 rows, find the first one whose metadata source is
hanzi_dojo, and read its recorded points total (0 when the key is
absent). -/
def lastSnapshotPoints (txns : List Entry) (kid : Nat) : Option Int :=
  let rows := ((txns.filter fun t =>
      t.kid == kid && t.ty == TxType.deposit && t.bucket == Bucket.cash &&
        t.meta.isSome).reverse).take 50
  (rows.find? fun t => (t.meta.bind Meta.source) == some "hanzi_dojo").map
    fun t => (t.meta.bind Meta.pointsTotal).getD 0

/-- Modelled from the wording of the specification, for comparison with
the code-derived `lastSnapshotPoints`: the high-water mark is the recorded
total of the most recent entry of the entity carrying the source tag in
its metadata, with no window. -/
def specHighWaterMark (txns : List Entry) (kid : Nat) : Option Int :=
  ((txns.filter fun t =>
      t.kid == kid && (t.meta.bind Meta.source) == some "hanzi_dojo").getLast?).map
    fun t => (t.meta.bind Meta.pointsTotal).getD 0

/-- The AddMoney Hanzi Dojo flow: read the conversion rate setting, read
the previous total via the last-snapshot query (0 when none is found),
compute the delta; a non-positive delta is refused before any deposit
(negative delta with the fewer-points regression message); a positive
delta deposits `round(delta * rate, 2)` through `deposit_to_cash` with the
new total and the delta in the metadata. -/
def recordHanziSnapshot (db : DB) (caller kid : Nat) (currentTotal : Int)
    (note : Option String) (today : Int) : Except Err (ℚ × DB) :=
  match getSetting db "hanzi_dojo_conversion_rate" with
  | none => .error .settingNotFound
  | some rate =>
    let lastPoints := (lastSnapshotPoints db.txns kid).getD 0
    let delta := currentTotal - lastPoints
    if delta < 0 then .error .regressionDetected
    else if delta = 0 then .error .noNewPoints
    else
      deposit_to_cash db caller kid (round2 ((delta : ℚ) * rate)) note
        (some "hanzi_dojo")
        (some { pointsTotal := some currentTotal, pointsDelta := some delta })
        today

/-- The trigger `prevent_txn_mutation`: unconditionally raises. -/
def prevent_txn_mutation : Except Err Unit := .error .appendOnly

/-- An UPDATE statement against `transactions`: for each row matched by
the predicate the BEFORE UPDATE trigger `enforce_append_only` runs
`prevent_txn_mutation`, which raises and aborts the whole statement; a
statement matching no row changes nothing. -/
def updateTransactions (txns : List Entry) (sel : Entry → Bool)
    (f : Entry → Entry) : Except Err (List Entry) :=
  if txns.any sel then
    match prevent_txn_mutation with
    | .error e => .error e
    | .ok _ => .ok (txns.map fun t => if sel t then f t else t)
  else .ok txns

/-- A DELETE statement against `transactions`, guarded by the same BEFORE
DELETE trigger. -/
def deleteTransactions (txns : List Entry) (sel : Entry → Bool) :
    Except Err (List Entry) :=
  if txns.any sel then
    match prevent_txn_mutation with
    | .error e => .error e
    | .ok _ => .ok (txns.filter fun t => ¬ sel t)
  else .ok txns

/-- One mutating request against the ledger, with every caller-side input
explicit. -/
inductive Op
  | depositOp (caller kid : Nat) (amount : ℚ) (note src : Option String)
      (m : Option Meta) (today : Int)
  | withdrawOp (caller kid : Nat) (amount : ℚ) (note : Option String)
      (today : Int)
  | investMmfOp (caller kid : Nat) (amount : ℚ) (today : Int)
  | redeemMmfOp (caller kid : Nat) (amount : ℚ) (today : Int)
  | accrueOp (caller kid : Nat) (today : Int)
  | createCdOp (caller kid : Nat) (amount : ℚ) (termMonths : Nat)
      (today maturity : Int) (newLotId : Nat)
  | matureCdOp (caller lotId : Nat) (today : Int)
  | breakCdOp (caller lotId : Nat) (today : Int)
  | buyStockOp (caller kid : Nat) (tick : String) (dollars : ℚ) (today : Int)
  | spendMmfOp (caller kid : Nat) (amount : ℚ) (note : Option String)
      (today : Int)
  | hanziOp (caller kid : Nat) (currentTotal : Int) (note : Option String)
      (today : Int)

/-- Run one operation, keeping only the resulting state. -/
def stepDB (db : DB) : Op → Except Err DB
  | .depositOp c k a n s m t => (deposit_to_cash db c k a n s m t).map (·.2)
  | .withdrawOp c k a n t => (withdraw_from_cash db c k a n t).map (·.2)
  | .investMmfOp c k a t => (invest_in_mmf db c k a t).map (·.2)
  | .redeemMmfOp c k a t => (redeem_from_mmf db c k a t).map (·.2)
  | .accrueOp c k t => (accrue_mmf_interest db c k t).map (·.2)
  | .createCdOp c k a tm t mat nid => (create_cd db c k a tm t mat nid).map (·.2)
  | .matureCdOp c l t => (mature_cd db c l t).map (·.2)
  | .breakCdOp c l t => (break_cd db c l t).map (·.2)
  | .buyStockOp c k tk d t => (buy_stock db c k tk d t).map (·.2)
  | .spendMmfOp c k a n t => (spend_from_mmf db c k a n t).map (·.2)
  | .hanziOp c k ct n t => (recordHanziSnapshot db c k ct n t).map (·.2)

/-- The observable state after a request: a raised exception aborts the
transaction, so a failing operation leaves the database unchanged. -/
def applyOp (db : DB) (op : Op) : DB :=
  match stepDB db op with
  | .ok db' => db'
  | .error _ => db

/-- The state after a whole sequence of requests. -/
def applyOps (db : DB) (ops : List Op) : DB :=
  ops.foldl applyOp db

/-! ### Helper lemmas -/

theorem foldr_amount_eq_sum (l : List Entry) :
    l.foldr (fun e s => e.amount + s) 0 = (l.map Entry.amount).sum := by
  induction l with
  | nil => rfl
  | cons a l ih => simp [List.foldr_cons, ih]

theorem foldl_amount_eq_sum (l : List Entry) (a : ℚ) :
    l.foldl (fun s e => s + e.amount) a = a + (l.map Entry.amount).sum := by
  induction l generalizing a with
  | nil => simp
  | cons x l ih => simp [List.foldl_cons, ih, add_assoc]

theorem filter_beq_eq_decide (kid : Nat) (b : Bucket) (l : List Entry) :
    (l.filter fun e => e.kid == kid && e.bucket == b) =
      (l.filter fun e => decide (e.kid = kid) && decide (e.bucket = b)) := by
  apply List.filter_congr
  intro e _
  by_cases h1 : e.kid = kid <;> by_cases h2 : e.bucket = b <;>
    simp [h1, h2]

theorem sumBucket_eq_spec (txns : List Entry) (kid : Nat) (b : Bucket) :
    sumBucket txns kid b = specSignedSum txns kid b := by
  rw [sumBucket, specSignedSum, filter_beq_eq_decide, foldr_amount_eq_sum]

theorem getCashBalance_eq_spec (txns : List Entry) (kid : Nat) :
    getCashBalance txns kid = specSignedSum txns kid Bucket.cash := by
  rw [getCashBalance, specSignedSum, filter_beq_eq_decide,
    foldl_amount_eq_sum, zero_add]

theorem getMmfBalance_eq_spec (txns : List Entry) (kid : Nat) :
    getMmfBalance txns kid = specSignedSum txns kid Bucket.mmf := by
  rw [getMmfBalance, specSignedSum, filter_beq_eq_decide,
    foldl_amount_eq_sum, zero_add]

theorem specSignedSum_append (l1 l2 : List Entry) (kid : Nat) (b : Bucket) :
    specSignedSum (l1 ++ l2) kid b =
      specSignedSum l1 kid b + specSignedSum l2 kid b := by
  simp [specSignedSum, List.filter_append]

theorem sumBucket_append (l1 l2 : List Entry) (kid : Nat) (b : Bucket) :
    sumBucket (l1 ++ l2) kid b = sumBucket l1 kid b + sumBucket l2 kid b := by
  simp [sumBucket_eq_spec, specSignedSum_append]

theorem find?_map_update {α : Type} (p : α → Bool) (f : α → α)
    (hp : ∀ x, p (f x) = p x) :
    ∀ (l : List α) (a : α), l.find? p = some a →
      (l.map fun x => if p x then f x else x).find? p = some (f a) := by
  intro l
  induction l with
  | nil => intro a h; cases h
  | cons x l ih =>
    intro a h
    by_cases hx : p x = true
    · rw [List.find?_cons_of_pos _ hx] at h
      cases h
      have hfx : p (f x) = true := by rw [hp]; exact hx
      rw [List.map_cons, if_pos hx, List.find?_cons_of_pos _ hfx]
    · rw [List.find?_cons_of_neg _ hx] at h
      rw [List.map_cons, if_neg hx, List.find?_cons_of_neg _ hx]
      exact ih a h

/-! ### Claims -/

/-- C1: after any sequence of operations (including failed ones, which
leave the state unchanged), the Balance Reader functions `getCashBalance`
and `getMmfBalance` and the new-balance values returned by the RPCs all
equal the signed sum of the entry amounts of the entity for the bucket, and the
balance is zero (not an error) when no entries match. -/
theorem C1_balance_is_signed_sum (db0 : DB) (ops : List Op)
    (kid caller : Nat) (amount : ℚ) (note src : Option String)
    (m : Option Meta) (today : Int) :
    getCashBalance (applyOps db0 ops).txns kid =
        specSignedSum (applyOps db0 ops).txns kid Bucket.cash
    ∧ getMmfBalance (applyOps db0 ops).txns kid =
        specSignedSum (applyOps db0 ops).txns kid Bucket.mmf
    ∧ ((applyOps db0 ops).txns.filter
          (fun e => decide (e.kid = kid) && decide (e.bucket = Bucket.cash)) = [] →
        getCashBalance (applyOps db0 ops).txns kid = 0)
    ∧ (∀ v db1,
        deposit_to_cash (applyOps db0 ops) caller kid amount note src m today =
          .ok (v, db1) → v = specSignedSum db1.txns kid Bucket.cash)
    ∧ (∀ v db1,
        withdraw_from_cash (applyOps db0 ops) caller kid amount note today =
          .ok (v, db1) → v = specSignedSum db1.txns kid Bucket.cash)
    ∧ (∀ r db1,
        invest_in_mmf (applyOps db0 ops) caller kid amount today =
          .ok (r, db1) →
          r = (specSignedSum db1.txns kid Bucket.cash,
               specSignedSum db1.txns kid Bucket.mmf))
    ∧ (∀ r db1,
        redeem_from_mmf (applyOps db0 ops) caller kid amount today =
          .ok (r, db1) →
          r = (specSignedSum db1.txns kid Bucket.cash,
               specSignedSum db1.txns kid Bucket.mmf))
    ∧ (∀ op e, stepDB (applyOps db0 ops) op = .error e →
        applyOp (applyOps db0 ops) op = applyOps db0 ops) := by
  refine ⟨getCashBalance_eq_spec _ _, getMmfBalance_eq_spec _ _,
    ?_, ?_, ?_, ?_, ?_, ?_⟩
  · intro h
    rw [getCashBalance_eq_spec, specSignedSum, h]
    rfl
  · intro v db1 h
    rw [deposit_to_cash] at h
    split_ifs at h <;> simp_all only [Except.ok.injEq, Prod.mk.injEq]
    obtain ⟨hv, hdb1⟩ := h
    subst hdb1
    rw [← hv, sumBucket_eq_spec]
  · intro v db1 h
    rw [withdraw_from_cash] at h
    split_ifs at h <;> simp_all only [Except.ok.injEq, Prod.mk.injEq]
    obtain ⟨hv, hdb1⟩ := h
    subst hdb1
    rw [← hv, sumBucket_eq_spec]
  · intro r db1 h
    rw [invest_in_mmf] at h
    split_ifs at h <;> simp_all only [Except.ok.injEq, Prod.mk.injEq]
    obtain ⟨hr, hdb1⟩ := h
    subst hdb1
    rw [← hr, sumBucket_eq_spec, sumBucket_eq_spec]
  · intro r db1 h
    rw [redeem_from_mmf] at h
    split_ifs at h <;> simp_all only [Except.ok.injEq, Prod.mk.injEq]
    obtain ⟨hr, hdb1⟩ := h
    subst hdb1
    rw [← hr, sumBucket_eq_spec, sumBucket_eq_spec]
  · intro op e h
    rw [applyOp, h]

/-- C2: for an authorized, validly-formed withdrawal request,
`withdraw_from_cash` raises InsufficientBalance exactly when the requested
amount exceeds the current cash balance; any failure appends no entry and
leaves the state unchanged; success appends exactly one negative cash
entry of the requested amount and returns the reduced balance. -/
theorem C2_withdraw_insufficient_iff (db : DB) (caller kid : Nat)
    (amount : ℚ) (note : Option String) (today : Int)
    (hauth : authorized db caller kid = true)
    (hamt : validAmount amount)
    (hnote : noteOk note) :
    (withdraw_from_cash db caller kid amount note today =
        .error .insufficientBalance ↔
      sumBucket db.txns kid Bucket.cash < amount)
    ∧ (∀ e, withdraw_from_cash db caller kid amount note today = .error e →
        e = .insufficientBalance ∧
        applyOp db (.withdrawOp caller kid amount note today) = db)
    ∧ (amount ≤ sumBucket db.txns kid Bucket.cash →
        ∃ db1, withdraw_from_cash db caller kid amount note today =
            .ok (sumBucket db.txns kid Bucket.cash - amount, db1)
          ∧ db1.txns = db.txns ++
              [{ kid := kid, ty := .withdraw, bucket := .cash,
                 amount := -amount, note := note, createdBy := caller,
                 day := today }]
          ∧ db1.lots = db.lots ∧ db1.positions = db.positions) := by
  have hW : withdraw_from_cash db caller kid amount note today =
      if sumBucket db.txns kid Bucket.cash < amount then
        .error .insufficientBalance
      else
        .ok (sumBucket (db.txns ++
              [{ kid := kid, ty := .withdraw, bucket := .cash,
                 amount := -amount, note := note, createdBy := caller,
                 day := today }]) kid Bucket.cash,
             { db with txns := db.txns ++
                [{ kid := kid, ty := .withdraw, bucket := .cash,
                   amount := -amount, note := note, createdBy := caller,
                   day := today }] }) := by
    rw [withdraw_from_cash, if_pos hauth, if_pos hamt, if_pos hnote]
  have hsum : sumBucket (db.txns ++
      [{ kid := kid, ty := .withdraw, bucket := .cash,
         amount := -amount, note := note, createdBy := caller,
         day := today }]) kid Bucket.cash =
      sumBucket db.txns kid Bucket.cash - amount := by
    rw [sumBucket_append]
    simp [sumBucket, sub_eq_add_neg]
  refine ⟨⟨fun h => ?_, fun h => ?_⟩, fun e h => ?_, fun h => ?_⟩
  · by_contra hn
    rw [hW, if_neg hn] at h
    exact absurd h (by simp)
  · rw [hW, if_pos h]
  · rw [hW] at h
    split_ifs at h with hlt
    have he : e = Err.insufficientBalance := by
      injection h with h'
      exact h'.symm
    refine ⟨he, ?_⟩
    rw [applyOp]
    have hstep : stepDB db (.withdrawOp caller kid amount note today) =
        .error e := by
      simp only [stepDB, hW, if_pos hlt, Except.map]
      rw [he]
    rw [hstep]
  · refine ⟨{ db with txns := db.txns ++
      [{ kid := kid, ty := .withdraw, bucket := .cash,
         amount := -amount, note := note, createdBy := caller,
         day := today }] }, ?_, rfl, rfl, rfl⟩
    rw [hW, if_neg (not_lt.mpr h), hsum]

/-- C8: a successful `spend_from_mmf` appends exactly three entries of the
requested amount — negative mmf, positive cash, negative cash — so the mmf
balance drops by the amount while the cash balance, all other buckets and
all other entities are unchanged. -/
theorem C8_spend_from_mmf_frame (db : DB) (caller kid : Nat) (amount : ℚ)
    (note : Option String) (today : Int)
    (hauth : authorized db caller kid = true)
    (hamt : validAmount amount)
    (hbal : amount ≤ sumBucket db.txns kid Bucket.mmf) :
    ∃ db1, spend_from_mmf db caller kid amount note today =
        .ok (sumBucket db1.txns kid Bucket.mmf, db1)
      ∧ db1.txns = db.txns ++
          [{ kid := kid, ty := .redeem, bucket := .mmf, amount := -amount,
             note := note, meta := some { reason := some "spend" },
             createdBy := caller, day := today },
           { kid := kid, ty := .redeem, bucket := .cash, amount := amount,
             note := note, meta := some { reason := some "spend",
                                          fundedFrom := some "mmf" },
             createdBy := caller, day := today },
           { kid := kid, ty := .withdraw, bucket := .cash, amount := -amount,
             note := note, meta := some { fundedFrom := some "mmf" },
             createdBy := caller, day := today }]
      ∧ db1.lots = db.lots ∧ db1.positions = db.positions
      ∧ sumBucket db1.txns kid Bucket.mmf =
          sumBucket db.txns kid Bucket.mmf - amount
      ∧ sumBucket db1.txns kid Bucket.cash =
          sumBucket db.txns kid Bucket.cash
      ∧ (∀ b, b ≠ Bucket.mmf →
          sumBucket db1.txns kid b = sumBucket db.txns kid b)
      ∧ (∀ k b, k ≠ kid →
          sumBucket db1.txns k b = sumBucket db.txns k b) := by
  refine ⟨{ db with txns := db.txns ++
      [{ kid := kid, ty := .redeem, bucket := .mmf, amount := -amount,
         note := note, meta := some { reason := some "spend" },
         createdBy := caller, day := today },
       { kid := kid, ty := .redeem, bucket := .cash, amount := amount,
         note := note, meta := some { reason := some "spend",
                                      fundedFrom := some "mmf" },
         createdBy := caller, day := today },
       { kid := kid, ty := .withdraw, bucket := .cash, amount := -amount,
         note := note, meta := some { fundedFrom := some "mmf" },
         createdBy := caller, day := today }] }, ?_, rfl, rfl, rfl,
    ?_, ?_, ?_, ?_⟩
  · rw [spend_from_mmf, if_pos hauth, if_pos hamt,
      if_neg (not_lt.mpr hbal)]
  · rw [sumBucket_append]
    simp [sumBucket, sub_eq_add_neg]
  · rw [sumBucket_append]
    simp [sumBucket]
  · intro b hb
    rw [sumBucket_append]
    cases b with
    | mmf => exact absurd rfl hb
    | cash => simp [sumBucket]
    | cd => simp [sumBucket]
    | stock => simp [sumBucket]
  · intro k b hk
    rw [sumBucket_append]
    have : (kid == k) = false := by
      simp [Ne.symm hk]
    simp [sumBucket, this]

/-- C10: for an entity whose mmf balance is zero or negative, an
authorized `accrue_mmf_interest` call raises no error and appends no
entry: it returns zero interest credited and the unchanged balance, with
the whole state untouched. -/
theorem C10_accrue_nonpositive_noop (db : DB) (caller kid : Nat)
    (today : Int)
    (hauth : authorized db caller kid = true)
    (hbal : sumBucket db.txns kid Bucket.mmf ≤ 0) :
    accrue_mmf_interest db caller kid today =
      .ok ((0, sumBucket db.txns kid Bucket.mmf), db) := by
  simp only [accrue_mmf_interest, if_pos hauth]
  rw [if_pos hbal]

/-- C3: for an entity with a positive mmf balance and a known last accrual
date (the most recent interest entry, or the first transfer into the fund
— the content of `lastAccrualDay`), `accrue_mmf_interest` is a no-op when
the elapsed days are not positive, appends nothing when the rounded
interest is zero, and otherwise credits exactly
`round(balance * (apy / 365) * days, 2)` as one interest entry. -/
theorem C3_accrue_interest (db : DB) (caller kid : Nat) (today : Int)
    (apyRate : ℚ) (d : Int)
    (hauth : authorized db caller kid = true)
    (hbal : 0 < sumBucket db.txns kid Bucket.mmf)
    (hapy : getSetting db "mmf_apy" = some apyRate)
    (hlast : lastAccrualDay db.txns kid = some d) :
    (today - d ≤ 0 →
      accrue_mmf_interest db caller kid today =
        .ok ((0, sumBucket db.txns kid Bucket.mmf), db))
    ∧ (0 < today - d →
        round2 (sumBucket db.txns kid Bucket.mmf * (apyRate / 365) *
          ((today - d : Int) : ℚ)) = 0 →
        accrue_mmf_interest db caller kid today =
          .ok ((0, sumBucket db.txns kid Bucket.mmf), db))
    ∧ (0 < today - d →
        0 < round2 (sumBucket db.txns kid Bucket.mmf * (apyRate / 365) *
          ((today - d : Int) : ℚ)) →
        accrue_mmf_interest db caller kid today =
          .ok ((round2 (sumBucket db.txns kid Bucket.mmf * (apyRate / 365) *
                  ((today - d : Int) : ℚ)),
                sumBucket db.txns kid Bucket.mmf +
                  round2 (sumBucket db.txns kid Bucket.mmf * (apyRate / 365) *
                    ((today - d : Int) : ℚ))),
            { db with txns := db.txns ++
                [{ kid := kid, ty := .interest, bucket := .mmf,
                   amount := round2 (sumBucket db.txns kid Bucket.mmf *
                     (apyRate / 365) * ((today - d : Int) : ℚ)),
                   meta := some { daysAccrued := some (today - d),
                                  apyAtAccrual := some apyRate,
                                  balanceAtAccrual :=
                                    some (sumBucket db.txns kid Bucket.mmf) },
                   createdBy := caller, day := today }] })) := by
  have hb' : ¬ sumBucket db.txns kid Bucket.mmf ≤ 0 := not_le.mpr hbal
  have hA : accrue_mmf_interest db caller kid today =
      (if today - d ≤ 0 then
        .ok ((0, sumBucket db.txns kid Bucket.mmf), db)
      else
        if round2 (sumBucket db.txns kid Bucket.mmf * (apyRate / 365) *
            ((today - d : Int) : ℚ)) ≤ 0 then
          .ok ((0, sumBucket db.txns kid Bucket.mmf), db)
        else
          .ok ((round2 (sumBucket db.txns kid Bucket.mmf * (apyRate / 365) *
                  ((today - d : Int) : ℚ)),
                sumBucket db.txns kid Bucket.mmf +
                  round2 (sumBucket db.txns kid Bucket.mmf * (apyRate / 365) *
                    ((today - d : Int) : ℚ))),
            { db with txns := db.txns ++
                [{ kid := kid, ty := .interest, bucket := .mmf,
                   amount := round2 (sumBucket db.txns kid Bucket.mmf *
                     (apyRate / 365) * ((today - d : Int) : ℚ)),
                   meta := some { daysAccrued := some (today - d),
                                  apyAtAccrual := some apyRate,
                                  balanceAtAccrual :=
                                    some (sumBucket db.txns kid Bucket.mmf) },
                   createdBy := caller, day := today }] })) := by
    rw [accrue_mmf_interest, if_pos hauth]
    simp only [hapy, hlast, if_neg hb']
  refine ⟨fun h => ?_, fun h1 h2 => ?_, fun h1 h2 => ?_⟩
  · rw [hA, if_pos h]
  · rw [hA, if_neg (not_le.mpr h1), if_pos (le_of_eq h2)]
  · rw [hA, if_neg (not_le.mpr h1), if_neg (not_le.mpr h2)]

/-- C4: breaking an active lot after `daysHeld = today - startDate` days
computes `interest = round(principal * apy * daysHeld / 365, 2)`,
`penalty = round(principal * apy * min(daysHeld, 30) / 365, 2)`, credits
exactly `principal + max(interest - penalty, 0)` to cash in one entry,
sets the lot status to broken, and the net proceeds are never below the
principal. -/
theorem C4_break_cd_proceeds (db : DB) (caller lotId : Nat) (today : Int)
    (lot : CdLot)
    (hlot : db.lots.find? (fun l => l.id == lotId) = some lot)
    (hauth : authorized db caller lot.kid = true)
    (hact : lot.status = .active) :
    ∃ db1, break_cd db caller lotId today =
        .ok ((lot.principal,
              round2 (lot.principal * lot.apy *
                ((today - lot.startDate : Int) : ℚ) / 365),
              round2 (lot.principal * lot.apy *
                ((min (today - lot.startDate) 30 : Int) : ℚ) / 365),
              lot.principal +
                max (round2 (lot.principal * lot.apy *
                      ((today - lot.startDate : Int) : ℚ) / 365) -
                     round2 (lot.principal * lot.apy *
                      ((min (today - lot.startDate) 30 : Int) : ℚ) / 365)) 0),
             db1)
      ∧ db1.txns = db.txns ++
          [{ kid := lot.kid, ty := .redeem, bucket := .cash,
             amount := lot.principal +
               max (round2 (lot.principal * lot.apy *
                     ((today - lot.startDate : Int) : ℚ) / 365) -
                    round2 (lot.principal * lot.apy *
                     ((min (today - lot.startDate) 30 : Int) : ℚ) / 365)) 0,
             note := some (toString lot.termMonths ++ "-month CD broken early"),
             meta := some { cdLotRef := some lotId,
                            principal := some lot.principal,
                            interest := some (round2 (lot.principal * lot.apy *
                              ((today - lot.startDate : Int) : ℚ) / 365)),
                            penalty := some (round2 (lot.principal * lot.apy *
                              ((min (today - lot.startDate) 30 : Int) : ℚ) / 365)),
                            penaltyDays := some (min (today - lot.startDate) 30),
                            netReturned := some (lot.principal +
                              max (round2 (lot.principal * lot.apy *
                                    ((today - lot.startDate : Int) : ℚ) / 365) -
                                   round2 (lot.principal * lot.apy *
                                    ((min (today - lot.startDate) 30 : Int) : ℚ) /
                                      365)) 0),
                            daysHeld := some (today - lot.startDate),
                            apy := some lot.apy },
             createdBy := caller, day := today }]
      ∧ db1.lots.find? (fun l => l.id == lotId) =
          some { lot with status := CdStatus.broken }
      ∧ db1.positions = db.positions
      ∧ lot.principal ≤ lot.principal +
          max (round2 (lot.principal * lot.apy *
                ((today - lot.startDate : Int) : ℚ) / 365) -
               round2 (lot.principal * lot.apy *
                ((min (today - lot.startDate) 30 : Int) : ℚ) / 365)) 0 := by
  refine ⟨{ db with
      lots := db.lots.map fun l =>
        if l.id == lotId then { l with status := CdStatus.broken } else l,
      txns := db.txns ++
        [{ kid := lot.kid, ty := .redeem, bucket := .cash,
           amount := lot.principal +
             max (round2 (lot.principal * lot.apy *
                   ((today - lot.startDate : Int) : ℚ) / 365) -
                  round2 (lot.principal * lot.apy *
                   ((min (today - lot.startDate) 30 : Int) : ℚ) / 365)) 0,
           note := some (toString lot.termMonths ++ "-month CD broken early"),
           meta := some { cdLotRef := some lotId,
                          principal := some lot.principal,
                          interest := some (round2 (lot.principal * lot.apy *
                            ((today - lot.startDate : Int) : ℚ) / 365)),
                          penalty := some (round2 (lot.principal * lot.apy *
                            ((min (today - lot.startDate) 30 : Int) : ℚ) / 365)),
                          penaltyDays := some (min (today - lot.startDate) 30),
                          netReturned := some (lot.principal +
                            max (round2 (lot.principal * lot.apy *
                                  ((today - lot.startDate : Int) : ℚ) / 365) -
                                 round2 (lot.principal * lot.apy *
                                  ((min (today - lot.startDate) 30 : Int) : ℚ) /
                                    365)) 0),
                          daysHeld := some (today - lot.startDate),
                          apy := some lot.apy },
           createdBy := caller, day := today }] },
    ?_, rfl, ?_, rfl, le_add_of_nonneg_right (le_max_right _ 0)⟩
  · simp only [break_cd, hlot, if_pos hauth, if_pos hact]
  · exact find?_map_update (fun l => l.id == lotId)
      (fun l => { l with status := CdStatus.broken }) (fun _ => rfl)
      db.lots lot hlot

/-- C5, corrected: `mature_cd` fails unless the lot is active and today is
at or past maturity; when it succeeds it credits
`principal + round(principal * apy * termDays / 365, 2)` to cash in one
entry, where `termDays = maturityDate - startDate` (the fixed term — not
the days from the start date to the day of the call), and sets the status
to matured. -/
theorem C5_mature_cd_term_interest (db : DB) (caller lotId : Nat)
    (today : Int) (lot : CdLot)
    (hlot : db.lots.find? (fun l => l.id == lotId) = some lot)
    (hauth : authorized db caller lot.kid = true) :
    (lot.status ≠ .active →
      mature_cd db caller lotId today = .error .lotNotActive)
    ∧ (lot.status = .active → today < lot.maturityDate →
        mature_cd db caller lotId today = .error .notYetMatured)
    ∧ (lot.status = .active → lot.maturityDate ≤ today →
        ∃ db1, mature_cd db caller lotId today =
            .ok ((lot.principal,
                  round2 (lot.principal * lot.apy *
                    ((lot.maturityDate - lot.startDate : Int) : ℚ) / 365),
                  lot.principal + round2 (lot.principal * lot.apy *
                    ((lot.maturityDate - lot.startDate : Int) : ℚ) / 365)),
                 db1)
          ∧ db1.txns = db.txns ++
              [{ kid := lot.kid, ty := .redeem, bucket := .cash,
                 amount := lot.principal + round2 (lot.principal * lot.apy *
                   ((lot.maturityDate - lot.startDate : Int) : ℚ) / 365),
                 note := some (toString lot.termMonths ++ "-month CD matured"),
                 meta := some { cdLotRef := some lotId,
                                principal := some lot.principal,
                                interest := some (round2 (lot.principal *
                                  lot.apy *
                                  ((lot.maturityDate - lot.startDate : Int) : ℚ)
                                    / 365)),
                                apy := some lot.apy,
                                daysHeld :=
                                  some (lot.maturityDate - lot.startDate) },
                 createdBy := caller, day := today }]
          ∧ db1.lots.find? (fun l => l.id == lotId) =
              some { lot with status := CdStatus.matured }
          ∧ db1.positions = db.positions) := by
  refine ⟨fun hst => ?_, fun hact hlt => ?_, fun hact hle => ?_⟩
  · simp only [mature_cd, hlot, if_pos hauth, if_neg hst]
  · simp only [mature_cd, hlot, if_pos hauth, if_pos hact]
    rw [if_pos hlt]
  · refine ⟨{ db with
        lots := db.lots.map fun l =>
          if l.id == lotId then { l with status := CdStatus.matured } else l,
        txns := db.txns ++
          [{ kid := lot.kid, ty := .redeem, bucket := .cash,
             amount := lot.principal + round2 (lot.principal * lot.apy *
               ((lot.maturityDate - lot.startDate : Int) : ℚ) / 365),
             note := some (toString lot.termMonths ++ "-month CD matured"),
             meta := some { cdLotRef := some lotId,
                            principal := some lot.principal,
                            interest := some (round2 (lot.principal *
                              lot.apy *
                              ((lot.maturityDate - lot.startDate : Int) : ℚ)
                                / 365)),
                            apy := some lot.apy,
                            daysHeld :=
                              some (lot.maturityDate - lot.startDate) },
             createdBy := caller, day := today }] },
      ?_, rfl, ?_, rfl⟩
    · simp only [mature_cd, hlot, if_pos hauth, if_pos hact]
      rw [if_neg (not_lt.mpr hle)]
    · exact find?_map_update (fun l => l.id == lotId)
        (fun l => { l with status := CdStatus.matured }) (fun _ => rfl)
        db.lots lot hlot

/-- C6: a successful `buy_stock` computes
`shares = round(dollars / price, 8)` with the most recent price and
updates the (kid, ticker) position purely additively: a new position gets
exactly these shares with cost basis `dollars`; an existing position has
the shares and `dollars` added to its shares and cost basis. -/
theorem C6_buy_stock_additive (db : DB) (caller kid : Nat) (tick : String)
    (dollars price : ℚ) (today : Int)
    (hauth : authorized db caller kid = true)
    (htick : validTicker tick = true)
    (hamt : validAmount dollars)
    (hprice : latestPrice db.prices tick = some price)
    (hcash : dollars ≤ sumBucket db.txns kid Bucket.cash) :
    (∀ pos, findPosition db.positions kid tick = some pos →
      ∃ db1, buy_stock db caller kid tick dollars today =
          .ok ((round8 (dollars / price), price,
                sumBucket db1.txns kid Bucket.cash), db1)
        ∧ findPosition db1.positions kid tick =
            some { pos with shares := pos.shares + round8 (dollars / price),
                            costBasis := pos.costBasis + dollars }
        ∧ db1.txns = db.txns ++
            [{ kid := kid, ty := .buy, bucket := .cash, amount := -dollars,
               meta := some { ticker := some tick,
                              shares := some (round8 (dollars / price)),
                              pricePerShare := some price },
               createdBy := caller, day := today },
             { kid := kid, ty := .buy, bucket := .stock, amount := dollars,
               meta := some { ticker := some tick,
                              shares := some (round8 (dollars / price)),
                              pricePerShare := some price },
               createdBy := caller, day := today }])
    ∧ (findPosition db.positions kid tick = none →
        (activePositionCount db.positions kid : ℚ) <
          (getSetting db "stock_position_limit").getD 5 →
        ∃ db1, buy_stock db caller kid tick dollars today =
            .ok ((round8 (dollars / price), price,
                  sumBucket db1.txns kid Bucket.cash), db1)
          ∧ db1.positions = db.positions ++
              [{ kid := kid, ticker := tick,
                 shares := round8 (dollars / price), costBasis := dollars }]
          ∧ db1.txns = db.txns ++
              [{ kid := kid, ty := .buy, bucket := .cash, amount := -dollars,
                 meta := some { ticker := some tick,
                                shares := some (round8 (dollars / price)),
                                pricePerShare := some price },
                 createdBy := caller, day := today },
               { kid := kid, ty := .buy, bucket := .stock, amount := dollars,
                 meta := some { ticker := some tick,
                                shares := some (round8 (dollars / price)),
                                pricePerShare := some price },
                 createdBy := caller, day := today }]) := by
  constructor
  · intro pos hpos
    refine ⟨{ db with
        txns := db.txns ++
          [{ kid := kid, ty := .buy, bucket := .cash, amount := -dollars,
             meta := some { ticker := some tick,
                            shares := some (round8 (dollars / price)),
                            pricePerShare := some price },
             createdBy := caller, day := today },
           { kid := kid, ty := .buy, bucket := .stock, amount := dollars,
             meta := some { ticker := some tick,
                            shares := some (round8 (dollars / price)),
                            pricePerShare := some price },
             createdBy := caller, day := today }],
        positions := db.positions.map fun p =>
          if p.kid == kid && p.ticker == tick then
            { p with shares := p.shares + round8 (dollars / price),
                     costBasis := p.costBasis + dollars }
          else p }, ?_, ?_, rfl⟩
    · simp only [buy_stock, if_pos hauth, if_pos htick, if_pos hamt, hprice,
        hpos, Option.isSome_some]
      rw [if_neg (by intro hc; exact hc.1 trivial),
        if_neg (not_lt.mpr hcash)]
      simp only [eq_self_iff_true, if_true]
    · exact find?_map_update (fun p : Position => p.kid == kid && p.ticker == tick)
        (fun p : Position =>
          { p with shares := p.shares + round8 (dollars / price),
                   costBasis := p.costBasis + dollars })
        (fun _ => rfl) db.positions pos hpos
  · intro hpos hlim
    refine ⟨{ db with
        txns := db.txns ++
          [{ kid := kid, ty := .buy, bucket := .cash, amount := -dollars,
             meta := some { ticker := some tick,
                            shares := some (round8 (dollars / price)),
                            pricePerShare := some price },
             createdBy := caller, day := today },
           { kid := kid, ty := .buy, bucket := .stock, amount := dollars,
             meta := some { ticker := some tick,
                            shares := some (round8 (dollars / price)),
                            pricePerShare := some price },
             createdBy := caller, day := today }],
        positions := db.positions ++
          [{ kid := kid, ticker := tick, shares := round8 (dollars / price),
             costBasis := dollars }] }, ?_, rfl, rfl⟩
    simp only [buy_stock, if_pos hauth, if_pos htick, if_pos hamt, hprice,
      hpos, Option.isSome_none]
    rw [if_neg (by intro hc; exact absurd hc.2 (not_le.mpr hlim)),
      if_neg (not_lt.mpr hcash)]
    simp only [Bool.false_eq_true, if_false]

/-- C9: the `enforce_append_only` trigger rejects every UPDATE or DELETE
that touches an existing entry, for every selection and every new value,
leaving the table unchanged; a mutating statement can only succeed when it
matched no row, in which case it also changes nothing. -/
theorem C9_entries_immutable (txns : List Entry) (sel : Entry → Bool)
    (f : Entry → Entry) (e : Entry) (he : e ∈ txns) (hsel : sel e = true) :
    updateTransactions txns sel f = .error .appendOnly
    ∧ deleteTransactions txns sel = .error .appendOnly
    ∧ (∀ sel2 f2 r, updateTransactions txns sel2 f2 = .ok r → r = txns)
    ∧ (∀ sel2 r, deleteTransactions txns sel2 = .ok r → r = txns) := by
  have hany : txns.any sel = true := List.any_eq_true.mpr ⟨e, he, hsel⟩
  refine ⟨?_, ?_, ?_, ?_⟩
  · rw [updateTransactions, if_pos hany]
    rfl
  · rw [deleteTransactions, if_pos hany]
    rfl
  · intro sel2 f2 r h
    rw [updateTransactions] at h
    split_ifs at h
    · simp only [prevent_txn_mutation] at h
      exact absurd h (by simp)
    · injection h with h'
      exact h'.symm
  · intro sel2 r h
    rw [deleteTransactions] at h
    split_ifs at h
    · simp only [prevent_txn_mutation] at h
      exact absurd h (by simp)
    · injection h with h'
      exact h'.symm

/-! ### Concrete data for counterexamples and witnesses -/

/-- A household (id 1) with one admin (user 1) and one kid (kid 10), the
production default settings, and an empty ledger. -/
def baseDB : DB :=
  { admins := [(1, 1)], kids := [(10, 1)], txns := [], lots := [],
    positions := [], prices := [],
    settings := [("mmf_apy", 42/1000), ("cd_3m_apy", 48/1000),
                 ("stock_position_limit", 5),
                 ("hanzi_dojo_conversion_rate", 1/10)] }

/-- A 3-month lot of 100 dollars at 4.8 percent APY for kid 10, started on
day 0 and maturing on day 90. -/
def exLot : CdLot :=
  { id := 88, kid := 10, principal := 100, apy := 48/1000, termMonths := 3,
    startDate := 0, maturityDate := 90, status := .active }

/-- The base household holding the example lot. -/
def lotDB : DB := { baseDB with lots := [exLot] }

/-- A cash deposit of 80 dollars for kid 10. -/
def cashDB : DB :=
  { baseDB with txns :=
      [{ kid := 10, ty := .deposit, bucket := .cash, amount := 80,
         createdBy := 1, day := 0 }] }

/-- Kid 10 deposited 150 dollars and invested 100 of them into the
interest fund on day 0, leaving 50 in cash and 100 in the fund. -/
def mmfDB : DB :=
  { baseDB with txns :=
      [{ kid := 10, ty := .deposit, bucket := .cash, amount := 150,
         createdBy := 1, day := 0 },
       { kid := 10, ty := .invest, bucket := .cash, amount := -100,
         createdBy := 1, day := 0 },
       { kid := 10, ty := .invest, bucket := .mmf, amount := 100,
         createdBy := 1, day := 0 }] }

/-- Kid 10 holds 0.25 shares of AAPL at 200 dollars cost basis, has 1000
dollars of cash, and the latest AAPL price point (day 1) is 900. -/
def stockDB : DB :=
  { baseDB with
    txns := [{ kid := 10, ty := .deposit, bucket := .cash, amount := 1000,
               createdBy := 1, day := 0 }],
    positions := [{ kid := 10, ticker := "AAPL", shares := 1/4,
                    costBasis := 200 }],
    prices := [{ ticker := "AAPL", date := 0, closePrice := 800 },
               { ticker := "AAPL", date := 1, closePrice := 900 }] }

/-- The Hanzi Dojo snapshot entry recording a total of 500 points. -/
def hanziTagEntry : Entry :=
  { kid := 7, ty := .deposit, bucket := .cash, amount := 50,
    meta := some { source := some "hanzi_dojo", pointsTotal := some 500,
                   pointsDelta := some 500 },
    createdBy := 1, day := 10 }

/-- A chores deposit carrying source metadata (what `deposit_to_cash`
stores for every non-Hanzi source). -/
def choresEntry : Entry :=
  { kid := 7, ty := .deposit, bucket := .cash, amount := 5,
    meta := some { source := some "chores" }, createdBy := 1, day := 20 }

/-- Kid 7 of household 1: one Hanzi Dojo snapshot at 500 points followed
by fifty chores deposits, so the snapshot falls outside the 50-row window
of the last-snapshot query. -/
def hanziDB : DB :=
  { admins := [(1, 1)], kids := [(7, 1)],
    txns := hanziTagEntry :: List.replicate 50 choresEntry,
    lots := [], positions := [], prices := [],
    settings := [("hanzi_dojo_conversion_rate", 1/10)] }

/-- C5, counterexample: `mature_cd` called on day 100 — ten days past
maturity — on the active 100-dollar 4.8-percent lot held since day 0
succeeds and returns interest computed over the 90-day term, 1.18, not
the 1.32 that `round(principal * rate * actualDaysHeld / 365, 2)` over
the 100 days actually held (start date to the day of the call) would
give. -/
theorem C5_mature_cd_counterexample :
    (mature_cd lotDB 1 88 100).toOption.map (fun r => r.1.2.1) =
      some (round2 ((100 : ℚ) * (48/1000) * ((90 : Int) : ℚ) / 365))
    ∧ round2 ((100 : ℚ) * (48/1000) * ((90 : Int) : ℚ) / 365) = 118/100
    ∧ round2 ((100 : ℚ) * (48/1000) * ((100 - 0 : Int) : ℚ) / 365) = 132/100
    ∧ (118/100 : ℚ) ≠ 132/100 := by
  refine ⟨rfl, ?_, ?_, by norm_num⟩
  · norm_num [round2, roundTo]
  · norm_num [round2, roundTo]

/-- C7: the reported-total regression guard reads its high-water mark from
a query limited to the 50 most recent metadata-bearing cash deposits.
With the tagged snapshot (500 points) pushed out of that window by fifty
chores deposits, recording the lower total 300 does not fail with the
regression error: it treats the previous total as zero and deposits
`round(300 * rate, 2)`, appending a deposit entry whose recorded total,
300, is below the actual high-water mark 500. -/
theorem C7_hanzi_window_misses_high_water :
    specHighWaterMark hanziDB.txns 7 = some 500
    ∧ lastSnapshotPoints hanziDB.txns 7 = none
    ∧ (300 : Int) < 500
    ∧ recordHanziSnapshot hanziDB 1 7 300 none 60 =
        .ok (sumBucket (hanziDB.txns ++
              [{ kid := 7, ty := .deposit, bucket := .cash,
                 amount := round2 (((300 : Int) : ℚ) * (1/10)), note := none,
                 meta := some { source := some "hanzi_dojo",
                                pointsTotal := some 300,
                                pointsDelta := some 300 },
                 createdBy := 1, day := 60 }]) 7 Bucket.cash,
             { hanziDB with txns := hanziDB.txns ++
                [{ kid := 7, ty := .deposit, bucket := .cash,
                   amount := round2 (((300 : Int) : ℚ) * (1/10)), note := none,
                   meta := some { source := some "hanzi_dojo",
                                  pointsTotal := some 300,
                                  pointsDelta := some 300 },
                   createdBy := 1, day := 60 }] })
    ∧ round2 (((300 : Int) : ℚ) * (1/10)) = 30 := by
  refine ⟨rfl, rfl, by norm_num, ?_, by push_cast; norm_num [round2, roundTo]⟩
  rw [recordHanziSnapshot]
  have hset : getSetting hanziDB "hanzi_dojo_conversion_rate" =
      some (1/10 : ℚ) := rfl
  have hsnap : lastSnapshotPoints hanziDB.txns 7 = none := rfl
  simp only [hset, hsnap, Option.getD_none]
  rw [if_neg (by norm_num : ¬ ((300 : Int) - 0 < 0)),
    if_neg (by norm_num : ¬ ((300 : Int) - 0 = 0))]
  rw [deposit_to_cash,
    if_pos (by decide : authorized hanziDB 1 7 = true),
    if_pos (by push_cast; norm_num [validAmount, round2, roundTo] :
      validAmount (round2 ((((300 : Int) - 0 : Int) : ℚ) * (1/10))))]
  rfl

/-! ### Witnesses -/

theorem sum_mmfDB_mmf : sumBucket mmfDB.txns 10 Bucket.mmf = 100 := by
  simp [sumBucket, mmfDB, baseDB, List.filter,
    (by decide : (Bucket.cash == Bucket.mmf) = false),
    (by decide : (Bucket.mmf == Bucket.mmf) = true)]

theorem sum_mmfDB_cash : sumBucket mmfDB.txns 10 Bucket.cash = 50 := by
  simp [sumBucket, mmfDB, baseDB, List.filter,
    (by decide : (Bucket.cash == Bucket.cash) = true),
    (by decide : (Bucket.mmf == Bucket.cash) = false)]
  norm_num

theorem sum_cashDB_cash : sumBucket cashDB.txns 10 Bucket.cash = 80 := by
  simp [sumBucket, cashDB, baseDB, List.filter,
    (by decide : (Bucket.cash == Bucket.cash) = true)]

theorem sum_stockDB_cash : sumBucket stockDB.txns 10 Bucket.cash = 1000 := by
  simp [sumBucket, stockDB, baseDB, List.filter,
    (by decide : (Bucket.cash == Bucket.cash) = true)]

/-- Witness for C1 at the base household: the cash reader agrees with the
signed sum, and the balance of an entity with no entries is zero. -/
theorem C1_balance_is_signed_sum_witness :
    getCashBalance (applyOps baseDB []).txns 10 =
      specSignedSum (applyOps baseDB []).txns 10 Bucket.cash
    ∧ getCashBalance (applyOps baseDB []).txns 10 = 0 := by
  have h := C1_balance_is_signed_sum baseDB [] 10 1 25 none none none 0
  exact ⟨h.1, h.2.2.1 rfl⟩

/-- Witness for C2: withdrawing 100 dollars from a cash balance of 80
fails with InsufficientBalance. -/
theorem C2_withdraw_insufficient_iff_witness :
    withdraw_from_cash cashDB 1 10 100 none 5 =
      .error .insufficientBalance := by
  have h := C2_withdraw_insufficient_iff cashDB 1 10 100 none 5 (by decide)
    (by norm_num [validAmount, round2, roundTo]) trivial
  exact h.1.mpr (by rw [sum_cashDB_cash]; norm_num)

/-- Witness for C3: accruing after 30 days on a 100-dollar fund balance at
4.2 percent credits `round(100 * 0.042 / 365 * 30, 2) = 0.35` and reports
the balance 100.35. -/
theorem C3_accrue_interest_witness :
    (accrue_mmf_interest mmfDB 1 10 30).toOption.map (fun r => r.1) =
      some (35/100, 100 + 35/100) := by
  have hsum : sumBucket mmfDB.txns 10 Bucket.mmf = 100 := sum_mmfDB_mmf
  have h := C3_accrue_interest mmfDB 1 10 30 (42/1000) 0 (by decide)
    (by rw [hsum]; norm_num) rfl rfl
  have hi : round2 (sumBucket mmfDB.txns 10 Bucket.mmf * ((42:ℚ)/1000 / 365) *
      (((30 : Int) - 0 : Int) : ℚ)) = 35/100 := by
    rw [hsum]
    push_cast
    norm_num [round2, roundTo]
  rw [h.2.2 (by norm_num) (by rw [hi]; norm_num), hi, hsum]
  rfl

/-- Witness for C4: breaking the 100-dollar 4.8-percent lot after 45 days
yields interest 0.59, penalty 0.39 and net proceeds 100.20, not below the
principal. -/
theorem C4_break_cd_proceeds_witness :
    (break_cd lotDB 1 88 45).toOption.map (fun r => r.1) =
      some (100, 59/100, 39/100, 1002/10)
    ∧ (100 : ℚ) ≤ 1002/10 := by
  obtain ⟨db1, hrun, htx, hfind, hpos, hnet⟩ :=
    C4_break_cd_proceeds lotDB 1 88 45 exLot rfl (by decide) rfl
  rw [hrun]
  simp only [Except.toOption, Option.map_some', Option.some.injEq,
    Prod.mk.injEq]
  refine ⟨⟨rfl, ?_, ?_, ?_⟩, by norm_num⟩
  · norm_num [exLot, round2, roundTo]
  · norm_num [exLot, round2, roundTo, min_def]
  · have h1 : round2 (exLot.principal * exLot.apy *
        (((45 : Int) - exLot.startDate : Int) : ℚ) / 365) = 59/100 := by
      norm_num [exLot, round2, roundTo]
    have h2 : round2 (exLot.principal * exLot.apy *
        ((min ((45 : Int) - exLot.startDate) 30 : Int) : ℚ) / 365) =
        39/100 := by
      norm_num [exLot, round2, roundTo, min_def]
    rw [h1, h2]
    rw [max_eq_left (by norm_num)]
    norm_num [exLot]

/-- Witness for C5 (amended): maturing the 90-day lot on day 100 returns
the principal plus interest over the 90-day term, 1.18, for a total of
101.18. -/
theorem C5_mature_cd_term_interest_witness :
    (mature_cd lotDB 1 88 100).toOption.map (fun r => r.1) =
      some (100, 118/100, 100 + 118/100) := by
  obtain ⟨db1, hrun, htx, hfind, hpos⟩ :=
    (C5_mature_cd_term_interest lotDB 1 88 100 exLot rfl (by decide)).2.2
      rfl (by decide)
  rw [hrun]
  simp only [Except.toOption, Option.map_some', Option.some.injEq,
    Prod.mk.injEq]
  have h1 : round2 (exLot.principal * exLot.apy *
      ((exLot.maturityDate - exLot.startDate : Int) : ℚ) / 365) =
      118/100 := by
    norm_num [exLot, round2, roundTo]
  refine ⟨rfl, h1, ?_⟩
  rw [h1]
  norm_num [exLot]

/-- Witness for C6: buying 100 dollars of AAPL at the latest price 900
adds `round(100 / 900, 8) = 0.11111111` shares and 100 dollars of cost
basis to the existing (0.25 shares, 200 dollars) position. -/
theorem C6_buy_stock_additive_witness :
    (buy_stock stockDB 1 10 "AAPL" 100 2).toOption.map
        (fun r => (r.1.1, r.1.2.1, findPosition r.2.positions 10 "AAPL")) =
      some (round8 ((100 : ℚ) / 900), 900,
            some { kid := 10, ticker := "AAPL",
                   shares := 1/4 + round8 ((100 : ℚ) / 900),
                   costBasis := 200 + 100 })
    ∧ round8 ((100 : ℚ) / 900) = 11111111/100000000 := by
  obtain ⟨db1, hrun, hfind, htx⟩ :=
    (C6_buy_stock_additive stockDB 1 10 "AAPL" 100 900 2 (by decide)
      (by decide) (by norm_num [validAmount, round2, roundTo]) rfl
      (by norm_num [sumBucket, stockDB, baseDB])).1
      { kid := 10, ticker := "AAPL", shares := 1/4, costBasis := 200 } rfl
  refine ⟨?_, by norm_num [round8, roundTo]⟩
  rw [hrun]
  simp only [Except.toOption, Option.map_some', Option.some.injEq,
    Prod.mk.injEq]
  exact ⟨trivial, trivial, by rw [hfind]⟩

/-- Witness for C8: spending 40 dollars from the 100-dollar fund leaves
the fund at 60, the cash balance unchanged at 50, and appends exactly
three entries to the three existing ones. -/
theorem C8_spend_from_mmf_frame_witness :
    (spend_from_mmf mmfDB 1 10 40 none 3).toOption.map
        (fun r => (r.1, sumBucket r.2.txns 10 Bucket.cash,
                   r.2.txns.length)) =
      some (60, 50, 6) := by
  obtain ⟨db1, hrun, htx, hlots, hposn, hmmf, hcash, hother, hkids⟩ :=
    C8_spend_from_mmf_frame mmfDB 1 10 40 none 3 (by decide)
      (by norm_num [validAmount, round2, roundTo])
      (by rw [sum_mmfDB_mmf]; norm_num)
  rw [hrun]
  simp only [Except.toOption, Option.map_some', Option.some.injEq,
    Prod.mk.injEq]
  refine ⟨?_, ?_, ?_⟩
  · rw [hmmf, sum_mmfDB_mmf]
    norm_num
  · rw [hcash, sum_mmfDB_cash]
  · rw [htx]
    simp [mmfDB, baseDB]

/-- Witness for C9: updating or deleting the existing cash entry of the
80-dollar ledger is rejected with the append-only error. -/
theorem C9_entries_immutable_witness :
    updateTransactions cashDB.txns (fun t => t.kid == 10)
        (fun t => { t with amount := 0 }) = .error .appendOnly
    ∧ deleteTransactions cashDB.txns (fun t => t.kid == 10) =
        .error .appendOnly := by
  have h := C9_entries_immutable cashDB.txns (fun t => t.kid == 10)
    (fun t => { t with amount := 0 })
    { kid := 10, ty := .deposit, bucket := .cash, amount := 80,
      createdBy := 1, day := 0 }
    (List.mem_singleton.mpr rfl) rfl
  exact ⟨h.1, h.2.1⟩

/-- Witness for C10: accruing on the empty ledger (fund balance zero)
returns zero interest and the zero balance without error. -/
theorem C10_accrue_nonpositive_noop_witness :
    accrue_mmf_interest baseDB 1 10 5 =
      .ok ((0, sumBucket baseDB.txns 10 Bucket.mmf), baseDB)
    ∧ sumBucket baseDB.txns 10 Bucket.mmf = 0 := by
  exact ⟨C10_accrue_nonpositive_noop baseDB 1 10 5 (by decide)
    (le_of_eq rfl), rfl⟩

end MiniMint
